import Mathlib

/-!
Verification of the WaterSense groundwater-quality dashboard frontend.

Numeric values flowing through the UI are modelled as rationals, which
faithfully represent every decimal literal appearing in the code and in the
data; JavaScript truthiness of a number is modelled as being nonzero.

Namespaces mirror the source files:
  MapView       src/components/MapView.tsx and src/frontend/components/MapView.tsx
  PredictPage   the prediction page (getWQICategory, the WQI > 100 correction)
  DistrictPage  the paginated district browser (formatNumber, fetchData, loadMore)
  TreatmentPage the treatment cost calculator
  TemporalChart src/components/TemporalChart.tsx
-/

namespace MapView

/-- Record shape of one map point, from the MapData interface in MapView.tsx. -/
structure MapData where
  district : String
  state : String
  latitude : ℚ
  longitude : ℚ
  avg_wqi : ℚ
  avg_tds : ℚ
  risk_category : String
  sample_count : ℕ

/-- Fixed India bounding box, from the INDIA_BOUNDS constant in MapView.tsx. -/
structure Bounds where
  north : ℚ
  south : ℚ
  east : ℚ
  west : ℚ

/-- INDIA_BOUNDS = { north: 37.5, south: 7.5, east: 98.0, west: 67.5 }. -/
def INDIA_BOUNDS : Bounds :=
  { north := 37.5, south := 7.5, east := 98.0, west := 67.5 }

/-- getColorByWQI from MapView.tsx: hex display color for a WQI value. -/
def getColorByWQI (wqi : ℚ) : String :=
  if wqi < 25 then "#4caf50"
  else if wqi < 50 then "#8bc34a"
  else if wqi < 100 then "#ff9800"
  else if wqi < 150 then "#ff5722"
  else "#d32f2f"

/-- getWQICategory from MapView.tsx: risk category label for a WQI value. -/
def getWQICategory (wqi : ℚ) : String :=
  if wqi < 25 then "Excellent"
  else if wqi < 50 then "Good"
  else if wqi < 100 then "Poor"
  else if wqi < 150 then "Very Poor"
  else "Unsuitable"

/-- isWithinIndia from MapView.tsx: closed-rectangle membership test. -/
def isWithinIndia (lat lng : ℚ) : Bool :=
  decide (lat ≥ INDIA_BOUNDS.south) && decide (lat ≤ INDIA_BOUNDS.north) &&
  decide (lng ≥ INDIA_BOUNDS.west) && decide (lng ≤ INDIA_BOUNDS.east)

/-- JavaScript truthiness of a (non-NaN) number: falsy exactly at 0.
Models the coordinate-presence test written as item.latitude && item.longitude. -/
def numTruthy (q : ℚ) : Bool :=
  decide (q ≠ 0)

/-- Filter applied to build heatPoints in heatmap mode (MapView.tsx):
item.latitude && item.longitude && isWithinIndia(item.latitude, item.longitude). -/
def heatPointFilter (item : MapData) : Bool :=
  numTruthy item.latitude && numTruthy item.longitude &&
  isWithinIndia item.latitude item.longitude

/-- Heat points built in heatmap mode: filtered records mapped to
(latitude, longitude, min(avg_wqi / 150, 1.0)). -/
def heatPoints (data : List MapData) : List (ℚ × ℚ × ℚ) :=
  (data.filter heatPointFilter).map
    (fun item => (item.latitude, item.longitude, min (item.avg_wqi / 150) 1))

/-- Marker-mode visibility test of src/components/MapView.tsx: the early
returns on !item.latitude, !item.longitude and the India bounds check.
The typeof check always passes because every coordinate is a number here. -/
def markerShown (item : MapData) : Bool :=
  numTruthy item.latitude && numTruthy item.longitude &&
  isWithinIndia item.latitude item.longitude

/-- Marker-mode visibility test of src/frontend/components/MapView.tsx, which
additionally range-checks latitude in [-90, 90] and longitude in [-180, 180]
before the India bounds check. -/
def frontendMarkerShown (item : MapData) : Bool :=
  numTruthy item.latitude && numTruthy item.longitude &&
  !(decide (item.latitude < -90) || decide (item.latitude > 90) ||
    decide (item.longitude < -180) || decide (item.longitude > 180)) &&
  isWithinIndia item.latitude item.longitude

end MapView

namespace PredictPage

/-- getWQICategory from the prediction page: its own threshold ladder
(50 / 100 / 150 / 200) with its own label strings. -/
def getWQICategory (wqi : ℚ) : String :=
  if wqi < 50 then "✅ Excellent Quality"
  else if wqi < 100 then "✅ Good Quality"
  else if wqi < 150 then "⚠️ Moderate Quality"
  else if wqi < 200 then "⚠️ Poor Quality"
  else "❌ Very Poor Quality - Unsuitable"

/-- getWQIColor from the prediction page. -/
def getWQIColor (wqi : ℚ) : String :=
  if wqi < 50 then "#4caf50"
  else if wqi < 100 then "#8bc34a"
  else if wqi < 150 then "#ff9800"
  else if wqi < 200 then "#ff5722"
  else "#f44336"

end PredictPage

/-- Shape of the inference response, from the PredictionResponse interface. -/
structure PredictPage.PredictionResponse where
  predicted_tds : ℚ
  wqi : ℚ
  risk_category : String
  potable : Bool
  safe_for_use : Bool
  recommendations : List String

/-- Client-side correction applied in onSubmit of the prediction page before
the result is stored: if result.wqi > 100 then both potable and
safe_for_use are overwritten with false, otherwise the result is kept. -/
def PredictPage.applyWQIConsistencyFix (result : PredictPage.PredictionResponse) :
    PredictPage.PredictionResponse :=
  if result.wqi > 100 then { result with potable := false, safe_for_use := false }
  else result

/-- Value of a string of decimal digits, as computed by parseInt on a
digits-only capture group. -/
def digitsToNat (cs : List Char) : ℕ :=
  cs.foldl (fun n c => n * 10 + (c.toNat - 48)) 0

namespace DistrictPage

/-- JavaScript values that can reach the formatNumber helper of the district
table: null, undefined, a string, or a (non-NaN) number. -/
inductive JSValue where
  | null
  | undefined
  | str (s : String)
  | num (q : ℚ)

/-- Value of an unsigned decimal literal, digits with at most one dot, as
accepted by the JavaScript Number conversion; none models NaN. -/
def decimalToRat (cs : List Char) : Option ℚ :=
  match cs.splitOn '.' with
  | [i] =>
      if i ≠ [] ∧ i.all Char.isDigit then some (digitsToNat i) else none
  | [i, f] =>
      if (i ++ f) ≠ [] ∧ (i ++ f).all Char.isDigit then
        some ((digitsToNat (i ++ f) : ℚ) / 10 ^ f.length)
      else none
  | _ => none

/-- JavaScript Number(string) on the strings reaching formatNumber: the empty
string converts to 0, an optional sign precedes a decimal literal, and
anything else is NaN, modelled as none. -/
def jsStringToNumber (s : String) : Option ℚ :=
  match s.toList with
  | [] => some 0
  | '-' :: rest => (decimalToRat rest).map (fun q => -q)
  | '+' :: rest => decimalToRat rest
  | cs => decimalToRat cs

/-- Left-pads a digit string with zeros up to width d. -/
def padZeros (s : String) (d : ℕ) : String :=
  String.mk (List.replicate (d - s.length) '0') ++ s

/-- JavaScript Number.prototype.toFixed on a rational: the magnitude is
rounded to d decimal places, ties away from zero, and printed with exactly
d digits after the dot. -/
def toFixed (q : ℚ) (d : ℕ) : String :=
  let scaled : ℤ := ⌊|q| * 10 ^ d + 1 / 2⌋
  let base : ℤ := 10 ^ d
  let sign := if q < 0 then "-" else ""
  if d = 0 then sign ++ toString scaled
  else sign ++ toString (scaled / base) ++ "." ++ padZeros (toString (scaled % base)) d

/-- formatNumber from the district page: null, undefined, the empty string
and the sentinels BDL and Nil become the dash placeholder; otherwise a
string goes through Number, an unparsable string is shown verbatim via
String(value), and a number is shown with toFixed. The decimals argument
defaults to 2 at every call site. -/
def formatNumber (value : JSValue) (decimals : ℕ) : String :=
  match value with
  | .null => "-"
  | .undefined => "-"
  | .str s =>
      if s = "" ∨ s = "BDL" ∨ s = "Nil" then "-"
      else
        match jsStringToNumber s with
        | none => s
        | some q => toFixed q decimals
  | .num q => toFixed q decimals

/-- Page size of the district browser. -/
def LIMIT : ℕ := 50

/-- Shape of one district-data response: the rows and total_records. -/
structure FetchResponse (Row : Type) where
  data : List Row
  total_records : ℕ

/-- In-memory pagination state of the district page: the accumulated rows,
the totalRecords reported by the server, and the next fetch offset. -/
structure PageState (Row : Type) where
  data : List Row
  totalRecords : ℕ
  offset : ℕ

/-- fetchData from the district page: resets the accumulated rows to the
first page, stores total_records, and sets offset to LIMIT. -/
def fetchData {Row : Type} (resp : FetchResponse Row) : PageState Row :=
  { data := resp.data, totalRecords := resp.total_records, offset := LIMIT }

/-- loadMore from the district page: appends the newly returned rows to the
accumulated array and advances offset by LIMIT; totalRecords is unchanged. -/
def loadMore {Row : Type} (s : PageState Row) (resp : FetchResponse Row) : PageState Row :=
  { s with data := s.data ++ resp.data, offset := s.offset + LIMIT }

/-- hasMore from the district page: offset < totalRecords. The Load more
button, and hence any further fetch, exists only while this is true. -/
def hasMore {Row : Type} (s : PageState Row) : Bool :=
  decide (s.offset < s.totalRecords)

end DistrictPage

namespace TreatmentPage

/-- Match attempt of the regular expression digits-dash-digits at a position
just after a rupee sign: both digit runs must be nonempty. -/
def matchAfterRupee (cs : List Char) : Option (ℕ × ℕ) :=
  let d1 := cs.takeWhile Char.isDigit
  let rest1 := cs.dropWhile Char.isDigit
  if d1 = [] then none
  else
    match rest1 with
    | '-' :: rest2 =>
        let d2 := rest2.takeWhile Char.isDigit
        if d2 = [] then none else some (digitsToNat d1, digitsToNat d2)
    | _ => none

/-- Left-to-right scan for the first match of the cost regular expression:
a rupee sign, a digit run, a dash, a digit run. -/
def scanCost : List Char → Option (ℕ × ℕ)
  | [] => none
  | c :: rest =>
      if c = '₹' then
        match matchAfterRupee rest with
        | some r => some r
        | none => scanCost rest
      else scanCost rest

/-- The match of cost_per_m3 against the rupee range pattern, returning the
two parseInt capture groups. -/
def costMatch (s : String) : Option (ℕ × ℕ) :=
  scanCost s.toList

/-- Cost computation of the treatment cost calculator: volume in litres is
converted to cubic metres, the cost string midpoint is taken as the average
cost (0 when the pattern does not match), and the total is their product. -/
def treatmentCost (volume : ℚ) (cost_per_m3 : String) : ℚ :=
  let volumeM3 := volume / 1000
  let avgCost : ℚ :=
    match costMatch cost_per_m3 with
    | some (a, b) => ((a : ℚ) + (b : ℚ)) / 2
    | none => 0
  volumeM3 * avgCost

end TreatmentPage

namespace TemporalChart

/-- Numeric value of parseFloat applied to toFixed of a rational with d
decimal places: the magnitude rounded to d decimals, ties away from zero. -/
def jsToFixedValue (q : ℚ) (d : ℕ) : ℚ :=
  (if q < 0 then -1 else 1) * (⌊|q| * 10 ^ d + 1 / 2⌋ : ℚ) / 10 ^ d

/-- One yearly aggregate record consumed by the temporal chart. -/
structure TemporalTrend where
  year : ℤ
  avg_wqi : ℚ
  avg_tds : ℚ
  avg_no3 : ℚ
  avg_f : ℚ

/-- One displayed chart row. -/
structure ChartPoint where
  year : ℤ
  WQI : ℚ
  TDS : ℚ
  NO3 : ℚ
  F : ℚ

/-- chartData from TemporalChart.tsx: every record is mapped to a chart row
where WQI, NO3 and F are the raw averages rounded to 2 decimals and TDS is
the raw average divided by 10 before the same rounding. -/
def chartData (data : List TemporalTrend) : List ChartPoint :=
  data.map fun item =>
    { year := item.year
      WQI := jsToFixedValue item.avg_wqi 2
      TDS := jsToFixedValue (item.avg_tds / 10) 2
      NO3 := jsToFixedValue item.avg_no3 2
      F := jsToFixedValue item.avg_f 2 }

end TemporalChart

/-- Position of a MapView category label on the quality ladder, best first.
Used to state monotonicity of the classifier. -/
def categoryRank (c : String) : ℕ :=
  if c = "Excellent" then 0
  else if c = "Good" then 1
  else if c = "Poor" then 2
  else if c = "Very Poor" then 3
  else 4

/-- C1: the claim states that the map layer classifier and the prediction
page classifier agree on every WQI value, in particular at the boundary
value 25. They do not: at WQI = 25 the map layer answers Good while the
prediction page answers Excellent Quality, because the prediction page
kept an older threshold ladder (50 / 100 / 150 / 200) with different label
strings, while the map layer was aligned with the backend (25 / 50 / 100 / 150). -/
theorem classifiers_disagree_at_25 :
    MapView.getWQICategory 25 = "Good" ∧
    PredictPage.getWQICategory 25 = "✅ Excellent Quality" ∧
    MapView.getWQICategory 25 ≠ PredictPage.getWQICategory 25 := by
  have h1 : MapView.getWQICategory 25 = "Good" := by norm_num [MapView.getWQICategory]
  have h2 : PredictPage.getWQICategory 25 = "✅ Excellent Quality" := by
    norm_num [PredictPage.getWQICategory]
  exact ⟨h1, h2, by rw [h1, h2]; decide⟩

/-- C2: the WQI classifier of the map layer is a total function on all
rational inputs returning exactly the five category/color pairs of the spec:
below 25 Excellent with green #4caf50, on [25, 50) Good with light green
#8bc34a, on [50, 100) Poor with orange #ff9800, on [100, 150) Very Poor with
deep orange #ff5722, and Unsuitable with red #d32f2f from 150 on. -/
theorem wqi_classifier_spec (v : ℚ) :
    (v < 25 → MapView.getWQICategory v = "Excellent" ∧ MapView.getColorByWQI v = "#4caf50") ∧
    (25 ≤ v → v < 50 → MapView.getWQICategory v = "Good" ∧ MapView.getColorByWQI v = "#8bc34a") ∧
    (50 ≤ v → v < 100 → MapView.getWQICategory v = "Poor" ∧ MapView.getColorByWQI v = "#ff9800") ∧
    (100 ≤ v → v < 150 → MapView.getWQICategory v = "Very Poor" ∧ MapView.getColorByWQI v = "#ff5722") ∧
    (150 ≤ v → MapView.getWQICategory v = "Unsuitable" ∧ MapView.getColorByWQI v = "#d32f2f") := by
  unfold MapView.getWQICategory MapView.getColorByWQI
  refine ⟨?_, ?_, ?_, ?_, ?_⟩ <;> intros <;> split_ifs <;>
    first
    | exact ⟨rfl, rfl⟩
    | linarith

/-- C2 witness: the classifier evaluated inside the Poor bracket at 60. -/
theorem wqi_classifier_spec_witness :
    (50 : ℚ) ≤ 60 ∧ (60 : ℚ) < 100 ∧
    MapView.getWQICategory 60 = "Poor" ∧ MapView.getColorByWQI 60 = "#ff9800" := by
  refine ⟨by norm_num, by norm_num, ?_, ?_⟩ <;>
  · have h := (wqi_classifier_spec 60).2.2.1 (by norm_num) (by norm_num)
    simp [h.1, h.2]

/-- C3: isWithinIndia returns true exactly on the closed rectangle
7.5 ≤ lat ≤ 37.5 and 67.5 ≤ lng ≤ 98.0, so every point outside is excluded,
every point strictly inside is included, and boundary-exact values such as
lat = 37.5 are included. -/
theorem isWithinIndia_iff (lat lng : ℚ) :
    MapView.isWithinIndia lat lng = true ↔
      (7.5 ≤ lat ∧ lat ≤ 37.5 ∧ 67.5 ≤ lng ∧ lng ≤ 98.0) := by
  simp [MapView.isWithinIndia, MapView.INDIA_BOUNDS, and_assoc]

/-- C9: the map layer classifier always answers one of the five fixed
categories, its category rank never improves as the WQI grows, and each
bracket is closed on its lower bound, so WQI 25 is Good, not Excellent. -/
theorem wqi_classifier_monotone :
    (∀ v : ℚ, MapView.getWQICategory v ∈
      (["Excellent", "Good", "Poor", "Very Poor", "Unsuitable"] : List String)) ∧
    (∀ v w : ℚ, v ≤ w →
      categoryRank (MapView.getWQICategory v) ≤ categoryRank (MapView.getWQICategory w)) ∧
    MapView.getWQICategory 25 = "Good" := by
  refine ⟨?_, ?_, ?_⟩
  · intro v
    unfold MapView.getWQICategory
    split_ifs <;> simp
  · intro v w h
    unfold MapView.getWQICategory
    split_ifs <;>
      first
      | decide
      | (exfalso; linarith)
  · norm_num [MapView.getWQICategory]

/-- C9 witness: monotonicity instantiated at the pair 30 ≤ 120. -/
theorem wqi_classifier_monotone_witness :
    (30 : ℚ) ≤ 120 ∧
    categoryRank (MapView.getWQICategory 30) ≤ categoryRank (MapView.getWQICategory 120) :=
  ⟨by norm_num, wqi_classifier_monotone.2.1 30 120 (by norm_num)⟩

/-- C10: a record whose latitude or longitude is exactly 0 is excluded from
rendering in heatmap mode and in both marker-mode variants, because the
coordinate-presence test uses JavaScript truthiness and a 0 coordinate is
falsy, even though 0 is inside the valid latitude and longitude ranges. -/
theorem zero_coordinate_excluded (item : MapView.MapData)
    (h : item.latitude = 0 ∨ item.longitude = 0) :
    MapView.heatPointFilter item = false ∧
    MapView.markerShown item = false ∧
    MapView.frontendMarkerShown item = false := by
  rcases h with h | h <;>
    simp [MapView.heatPointFilter, MapView.markerShown, MapView.frontendMarkerShown,
      MapView.numTruthy, h]

/-- C10 witness: a concrete record at latitude 0 and in-range longitude 75
is dropped by all three render paths. -/
theorem zero_coordinate_excluded_witness :
    MapView.heatPointFilter ⟨"A", "B", 0, 75, 60, 200, "Poor", 1⟩ = false ∧
    MapView.markerShown ⟨"A", "B", 0, 75, 60, 200, "Poor", 1⟩ = false ∧
    MapView.frontendMarkerShown ⟨"A", "B", 0, 75, 60, 200, "Poor", 1⟩ = false :=
  zero_coordinate_excluded ⟨"A", "B", 0, 75, 60, 200, "Poor", 1⟩ (Or.inl rfl)

/-- C4: whenever the server-returned wqi exceeds 100, the stored result has
potable = false and safe_for_use = false, whatever raw flags the server
returned, because onSubmit applies the consistency fix before storing. -/
theorem wqi_over_100_forces_not_potable (result : PredictPage.PredictionResponse)
    (h : result.wqi > 100) :
    (PredictPage.applyWQIConsistencyFix result).potable = false ∧
    (PredictPage.applyWQIConsistencyFix result).safe_for_use = false := by
  unfold PredictPage.applyWQIConsistencyFix
  rw [if_pos h]
  exact ⟨rfl, rfl⟩

/-- C4 witness: a response with WQI 105 and both raw flags true is stored
with both flags false. -/
theorem wqi_over_100_forces_not_potable_witness :
    (105 : ℚ) > 100 ∧
    (PredictPage.applyWQIConsistencyFix ⟨500, 105, "Poor", true, true, []⟩).potable = false ∧
    (PredictPage.applyWQIConsistencyFix ⟨500, 105, "Poor", true, true, []⟩).safe_for_use = false :=
  ⟨by norm_num,
   (wqi_over_100_forces_not_potable ⟨500, 105, "Poor", true, true, []⟩ (by norm_num)).1,
   (wqi_over_100_forces_not_potable ⟨500, 105, "Poor", true, true, []⟩ (by norm_num)).2⟩

/-- C5: with limit 50 and totalRecords 120, the offset is 50, 100 and 150
after the first, second and third fetch, each loadMore appends the newly
returned rows to the accumulated array, hasMore (offset < totalRecords)
holds after the first and second fetch, and after the third fetch hasMore
is false, so the Load more control that issues further fetches is gone. -/
theorem load_more_pagination (Row : Type) (r1 r2 r3 : List Row) :
    (DistrictPage.fetchData ⟨r1, 120⟩).offset = 50 ∧
    DistrictPage.hasMore (DistrictPage.fetchData ⟨r1, 120⟩) = true ∧
    (DistrictPage.loadMore (DistrictPage.fetchData ⟨r1, 120⟩) ⟨r2, 120⟩).offset = 100 ∧
    (DistrictPage.loadMore (DistrictPage.fetchData ⟨r1, 120⟩) ⟨r2, 120⟩).data = r1 ++ r2 ∧
    DistrictPage.hasMore (DistrictPage.loadMore (DistrictPage.fetchData ⟨r1, 120⟩) ⟨r2, 120⟩) = true ∧
    (DistrictPage.loadMore (DistrictPage.loadMore (DistrictPage.fetchData ⟨r1, 120⟩) ⟨r2, 120⟩) ⟨r3, 120⟩).offset = 150 ∧
    (DistrictPage.loadMore (DistrictPage.loadMore (DistrictPage.fetchData ⟨r1, 120⟩) ⟨r2, 120⟩) ⟨r3, 120⟩).data = (r1 ++ r2) ++ r3 ∧
    DistrictPage.hasMore (DistrictPage.loadMore (DistrictPage.loadMore (DistrictPage.fetchData ⟨r1, 120⟩) ⟨r2, 120⟩) ⟨r3, 120⟩) = false := by
  norm_num [DistrictPage.fetchData, DistrictPage.loadMore, DistrictPage.hasMore,
    DistrictPage.LIMIT]

/-- C6: for a volume of 1000 litres and the cost range string of the first
reverse-osmosis treatment, the calculator parses the range 100 to 250,
takes the midpoint 175 per cubic metre, and prices 1 cubic metre at 175. -/
theorem treatment_cost_midpoint :
    TreatmentPage.treatmentCost 1000 ("₹100-250/m³") = 175 := by
  have h : TreatmentPage.costMatch ("₹100-250/m³") = some (100, 250) := rfl
  simp only [TreatmentPage.treatmentCost, h]
  norm_num

/-- C7: chartData maps the record at every index to a chart row whose TDS
value is avg_tds divided by 10 and then rounded to 2 decimals, while the
WQI, NO3 and F values are the raw averages rounded to 2 decimals with no
scaling. -/
theorem temporal_chart_tds_scaling (l : List TemporalChart.TemporalTrend)
    (i : ℕ) (r : TemporalChart.TemporalTrend) (h : l[i]? = some r) :
    (TemporalChart.chartData l)[i]? = some
      { year := r.year
        WQI := TemporalChart.jsToFixedValue r.avg_wqi 2
        TDS := TemporalChart.jsToFixedValue (r.avg_tds / 10) 2
        NO3 := TemporalChart.jsToFixedValue r.avg_no3 2
        F := TemporalChart.jsToFixedValue r.avg_f 2 } := by
  simp [TemporalChart.chartData, h]

/-- C7 witness: a one-record list with avg_tds 125 produces a chart row with
TDS 12.5 and unscaled WQI, NO3 and F. -/
theorem temporal_chart_tds_scaling_witness :
    (TemporalChart.chartData [⟨2020, 80, 125, 5, 1⟩])[0]? = some
      { year := 2020
        WQI := TemporalChart.jsToFixedValue 80 2
        TDS := TemporalChart.jsToFixedValue (125 / 10) 2
        NO3 := TemporalChart.jsToFixedValue 5 2
        F := TemporalChart.jsToFixedValue 1 2 } :=
  temporal_chart_tds_scaling [⟨2020, 80, 125, 5, 1⟩] 0 ⟨2020, 80, 125, 5, 1⟩ rfl

/-- C8 counterexample: the claim says every non-numeric string cell is shown
as the dash placeholder, but formatNumber shows the unparsable string abc
verbatim, not as a dash. -/
theorem formatNumber_nonnumeric_not_dash :
    DistrictPage.formatNumber (DistrictPage.JSValue.str ("abc")) 2 = "abc" ∧
    DistrictPage.formatNumber (DistrictPage.JSValue.str ("abc")) 2 ≠ "-" := by
  exact ⟨rfl, by decide⟩

/-- C8 amended: formatNumber yields the dash placeholder for null, undefined,
the empty string and the sentinels BDL and Nil, and shows any other string
that does not parse as a number verbatim, so the render never fails; the
dash is not produced for arbitrary unparsable strings. -/
theorem formatNumber_placeholder (d : ℕ) :
    (∀ v : DistrictPage.JSValue,
      (v = DistrictPage.JSValue.null ∨ v = DistrictPage.JSValue.undefined ∨
       v = DistrictPage.JSValue.str ("") ∨ v = DistrictPage.JSValue.str ("BDL") ∨
       v = DistrictPage.JSValue.str ("Nil")) →
      DistrictPage.formatNumber v d = "-") ∧
    (∀ s : String, DistrictPage.jsStringToNumber s = none →
      s ≠ "" → s ≠ "BDL" → s ≠ "Nil" →
      DistrictPage.formatNumber (DistrictPage.JSValue.str s) d = s) := by
  constructor
  · intro v hv
    rcases hv with h | h | h | h | h <;> subst h <;> simp [DistrictPage.formatNumber]
  · intro s hs h1 h2 h3
    simp [DistrictPage.formatNumber, h1, h2, h3, hs]

/-- C8 amended witness: null becomes the dash and the unparsable string xyz
is shown verbatim. -/
theorem formatNumber_placeholder_witness :
    DistrictPage.formatNumber DistrictPage.JSValue.null 2 = "-" ∧
    DistrictPage.formatNumber (DistrictPage.JSValue.str ("xyz")) 2 = "xyz" :=
  ⟨(formatNumber_placeholder 2).1 DistrictPage.JSValue.null (Or.inl rfl),
   (formatNumber_placeholder 2).2 ("xyz") rfl (by decide) (by decide) (by decide)⟩
